import Mathlib

/-!
Verification of the CloudStudioRefresh monitoring service.

This file gives a shallow embedding, in Lean 4, of the core control-plane
logic of the repository: the scheduler's due-time computation, the probe
executor with its retry loop and response classification, the KV-backed
persistence operations (monitor configs, history, sessions, login attempts)
and the in-process TTL cache.  All times are UTC instants in milliseconds,
embedded as `Int` (JavaScript `Date.getTime()` values); JavaScript string
operations such as `String.prototype.includes` are embedded on `List Char`.

The repository contains two builds of the service: a single-file build
(`src/unnamed/part_005` and neighbours) and a modular build
(`src/services/*`, `src/api/*`, `src/unnamed/part_006`, `src/unnamed/part_007`).
Where the two builds diverge, both variants are embedded and named after
their build.
-/

set_option autoImplicit false

namespace CloudStudio

/-! ## JavaScript string primitives -/

/-- Embeds `a.startsWith(b)` on character lists: `b` is a leading segment of `a`. -/
def listStartsWith : List Char → List Char → Bool
  | _, [] => true
  | [], _ :: _ => false
  | a :: as, b :: bs => a == b && listStartsWith as bs

/-- Embeds `a.includes(b)` (JavaScript substring containment) on character lists. -/
def listIncludes : List Char → List Char → Bool
  | [], needle => listStartsWith [] needle
  | hay@(_ :: tl), needle => listStartsWith hay needle || listIncludes tl needle

/-- `a.includes(b)` on `String`. -/
def strIncludes (hay needle : String) : Bool :=
  listIncludes hay.toList needle.toList

/-! ## Configuration constants (defaults of `APP_CONFIG`, `src/config/app.ts`
and the identical block at the top of `src/unnamed/part_005`) -/

/-- `APP_CONFIG.MIN_MONITOR_INTERVAL` default (`'1'`). -/
def MIN_MONITOR_INTERVAL : Int := 1

/-- `APP_CONFIG.MAX_MONITOR_INTERVAL` default (`'60'`). -/
def MAX_MONITOR_INTERVAL : Int := 60

/-- `APP_CONFIG.LOGIN_LOCKOUT_MINUTES` default (`'15'`). -/
def LOGIN_LOCKOUT_MINUTES : Int := 15

/-- `APP_CONFIG.MAX_LOGIN_ATTEMPTS` default (`'5'`). -/
def MAX_LOGIN_ATTEMPTS : Nat := 5

/-! ## Data model -/

/-- Terminal probe status, the `'success' | 'error'` union of `MonitorResult.status`
and `MonitorHistory.status`. -/
inductive MStatus where
  | success
  | error
deriving DecidableEq, Repr

/-- `MonitorConfig` (`src/unnamed/part_005`, interface at the top of the file).
`urlParses` stands for the result of `new URL(config.url)` succeeding, i.e. the
value of `validateUrl(config.url)`; URL parsing itself is treated as opaque.
The `timestamp` fields are epoch milliseconds. -/
structure MonitorConfig where
  id : String
  name : String
  url : String
  cookie : String
  headers : Option (List (String × String)) := none
  method : Option String := none
  interval : Int
  enabled : Bool
  lastCheck : Option Int := none
  status : Option MStatus := none
  lastError : Option String := none
  createdAt : Int := 0
  updatedAt : Int := 0
  urlParses : Bool := true
deriving DecidableEq, Repr

/-- `validateInterval` (`src/utils/helpers.ts` and `src/unnamed/part_005`):
`interval >= MIN_MONITOR_INTERVAL && interval <= MAX_MONITOR_INTERVAL`. -/
def validateInterval (interval : Int) : Bool :=
  decide (MIN_MONITOR_INTERVAL ≤ interval) && decide (interval ≤ MAX_MONITOR_INTERVAL)

/-! ## C1: scheduler due-time computation -/

/-- `MonitorService.shouldExecuteMonitor` (`src/unnamed/part_007`, lines 160-173).
Given `config.lastCheck` and `config.interval`, at wall time `now`:
no last check means execute immediately; otherwise compute
`Math.floor((now - lastCheck) / (1000 * 60))` elapsed minutes and execute
when that is `>= config.interval`.  `Int.fdiv` is floor division, matching
`Math.floor` on a real quotient of integers. -/
def shouldExecuteMonitor (lastCheck : Option Int) (interval : Int) (now : Int) : Bool :=
  match lastCheck with
  | none => true
  | some lc => decide (interval ≤ (now - lc).fdiv (1000 * 60))

/-- The config-selection step of `MonitorScheduler.executeMonitoringCycle`
(`src/unnamed/part_005`, lines 4012-4027): the cycle takes all configs,
keeps `config.enabled`, and executes every one of the kept configs
(`executeMonitorTasks(enabledConfigs)`); no due-time filter is applied. -/
def executeMonitoringCycleSelection (configs : List MonitorConfig) : List MonitorConfig :=
  configs.filter (fun config => config.enabled)

/-! ## C3/C4/C6: probe executor -/

/-- The observable part of a `fetch` `Response` used by `executeMonitor`
(`src/unnamed/part_005`, lines 674-744): `ok` is `response.ok`, `status` and
`statusText` the HTTP status line, `url` the final post-redirect URL and
`body` the text obtained by `response.text()`. -/
structure FetchResponse where
  ok : Bool
  status : Nat
  statusText : String
  url : String
  body : String
deriving DecidableEq, Repr

/-- Outcome of one `fetch` dispatch: either a response, or a thrown error
(network failure, timeout abort, ...) carrying `error.message`. -/
inductive FetchOutcome where
  | resp (r : FetchResponse)
  | err (msg : String)
deriving DecidableEq, Repr

/-- One attempt as seen by `executeMonitor`: the elapsed wall time of the
attempt (`Date.now() - startTime`) and the fetch outcome. -/
structure FetchAttempt where
  elapsed : Nat
  outcome : FetchOutcome
deriving DecidableEq, Repr

/-- `MonitorResult` (`src/unnamed/part_005`, lines 474-481), minus the
`timestamp: new Date()` field, which no claim mentions. -/
structure MonitorResult where
  success : Bool
  status : MStatus
  responseTime : Option Nat := none
  httpStatus : Option Nat := none
  error : Option String := none
deriving DecidableEq, Repr

/-- `createMonitorResult` (`src/unnamed/part_005`, lines 483-497):
`status` is `'success'` exactly when the `success` flag is set; the optional
fields are passed through. -/
def createMonitorResult (success : Bool) (responseTime httpStatus : Option Nat)
    (error : Option String) : MonitorResult :=
  { success := success
    status := if success then MStatus.success else MStatus.error
    responseTime := responseTime
    httpStatus := httpStatus
    error := error }

/-- `MonitorHistory` (`src/unnamed/part_005`, lines 85-100), minus `timestamp`. -/
structure MonitorHistory where
  id : String
  monitorId : String
  status : MStatus
  responseTime : Option Nat := none
  error : Option String := none
  httpStatus : Option Nat := none
deriving DecidableEq, Repr

/-- `saveMonitorHistoryRecord` (`src/unnamed/part_005`, lines 801-817): the
history record written for a result (`status: result.status || 'error'`,
remaining fields copied).  `rid` is the generated `generateId()` value. -/
def historyRecordOf (rid monitorId : String) (result : MonitorResult) : MonitorHistory :=
  { id := rid
    monitorId := monitorId
    status := result.status
    responseTime := result.responseTime
    error := result.error
    httpStatus := result.httpStatus }

/-- Literal `'cloudstudio.net'`. -/
def cloudNet : String := "cloudstudio.net"

/-- Literal `'cloudstudio.club'`. -/
def cloudClub : String := "cloudstudio.club"

/-- The error reason for a response that fails `checkResponseSuccess`. -/
def unexpectedResponseMsg : String := "响应不符合预期"

/-- `checkResponseSuccess(response, text, config)` (`src/unnamed/part_005`,
lines 775-794): not-ok responses fail; if `config.url.includes('cloudstudio.net')`
the check is whether the final `response.url` includes `'cloudstudio.net'` or
`'cloudstudio.club'` (and the body is not consulted); otherwise an empty body
fails and anything else passes. -/
def checkResponseSuccess (response : FetchResponse) (text : String)
    (configUrl : String) : Bool :=
  if !response.ok then
    false
  else if strIncludes configUrl cloudNet then
    strIncludes response.url cloudNet || strIncludes response.url cloudClub
  else if text.length = 0 then
    false
  else
    true

/-- `error.message` of the `AbortError` raised when the timeout controller
fires; the retry guard tests `errorMsg.includes('AbortError')`. -/
def abortToken : String := "AbortError"

/-- The retry guard's cancellation test: `errorMsg.includes('AbortError')`. -/
def isAbortMsg (msg : String) : Bool :=
  strIncludes msg abortToken

/-- The `HTTP <status>: <statusText>` error string for a non-ok response. -/
def httpErrorMsg (status : Nat) (statusText : String) : String :=
  "HTTP " ++ toString status ++ ": " ++ statusText

/-- The message of the error thrown on `!validateUrl(config.url)`. -/
def invalidUrlMsg (url : String) : String :=
  "无效的 URL: " ++ url

/-- The full observable behaviour of one `executeMonitor` call tree:
the returned result, the list of results passed to `saveMonitorHistoryRecord`
(in write order), the `setTimeout` delays inserted before retries (ms), and
the total number of attempts made. -/
structure ExecTrace where
  result : MonitorResult
  saved : List MonitorResult
  delays : List Nat
  attempts : Nat
deriving DecidableEq, Repr

/-- `executeMonitor(config, retryCount)` (`src/unnamed/part_005`, lines
628-766).  `fetchAt k` is the fetch outcome of the attempt with
`retryCount = k`; an invalid URL throws before any network call, which the
surrounding `catch` treats like any other error.  On an error whose message
does not include `'AbortError'` and with `retryCount < 2`, the code sleeps
`1000 * (retryCount + 1)` ms and recurses with `retryCount + 1`; otherwise it
saves and returns an error result carrying the message.  Response handling:
`response.ok` responses are classified by `checkResponseSuccess` (success, or
error `响应不符合预期`); non-ok responses give error `HTTP <status>: <statusText>`.
Every terminal branch saves exactly its result.

`attemptAt` is the outcome the try-block observes for the attempt with
`retryCount = k`: the fetch outcome when the URL parses, otherwise the
thrown invalid-URL error (no network call). -/
def attemptAt (config : MonitorConfig) (fetchAt : Nat → FetchAttempt)
    (k : Nat) : FetchAttempt :=
  if config.urlParses then fetchAt k
  else { elapsed := 0, outcome := FetchOutcome.err (invalidUrlMsg config.url) }

/-- The response classification of `executeMonitor`'s try-block
(`src/unnamed/part_005`, lines 688-744): `response.ok` responses pass through
`checkResponseSuccess` (success, or error `响应不符合预期`); non-ok responses
give error `HTTP <status>: <statusText>`. -/
def classifyResponse (r : FetchResponse) (elapsed : Nat) (configUrl : String) :
    MonitorResult :=
  if r.ok then
    if checkResponseSuccess r r.body configUrl then
      createMonitorResult true (some elapsed) (some r.status) none
    else
      createMonitorResult false (some elapsed) (some r.status) (some unexpectedResponseMsg)
  else
    createMonitorResult false (some elapsed) (some r.status)
      (some (httpErrorMsg r.status r.statusText))

/-- The recursive body of `executeMonitor`; see `attemptAt`'s doc comment. -/
def executeMonitorGo (config : MonitorConfig) (fetchAt : Nat → FetchAttempt)
    (retryCount : Nat) : ExecTrace :=
  let attempt : FetchAttempt := attemptAt config fetchAt retryCount
  match attempt.outcome with
  | FetchOutcome.resp r =>
    let result := classifyResponse r attempt.elapsed config.url
    { result := result, saved := [result], delays := [], attempts := retryCount + 1 }
  | FetchOutcome.err msg =>
    if h : retryCount < 2 ∧ isAbortMsg msg = false then
      let t := executeMonitorGo config fetchAt (retryCount + 1)
      { result := t.result, saved := t.saved
        delays := 1000 * (retryCount + 1) :: t.delays, attempts := t.attempts }
    else
      let result := createMonitorResult false (some attempt.elapsed) none (some msg)
      { result := result, saved := [result], delays := [], attempts := retryCount + 1 }
termination_by 3 - retryCount
decreasing_by omega

/-- `executeMonitor(config)` as invoked by the scheduler (`retryCount = 0`). -/
def executeMonitor (config : MonitorConfig) (fetchAt : Nat → FetchAttempt) : ExecTrace :=
  executeMonitorGo config fetchAt 0

/-! ## Key-value maps

The Deno KV tables are embedded as association lists with map semantics:
`kvGet` is point lookup, `kvSet` overwrite, `kvErase` key deletion. -/

/-- Point lookup (`kv.get`). -/
def kvGet {κ ν : Type} [BEq κ] (key : κ) : List (κ × ν) → Option ν
  | [] => none
  | (k, v) :: rest => if k == key then some v else kvGet key rest

/-- Overwrite (`kv.set`). -/
def kvSet {κ ν : Type} [BEq κ] (key : κ) (v : ν) (store : List (κ × ν)) : List (κ × ν) :=
  (key, v) :: store.filter (fun e => !(e.1 == key))

/-- Key deletion (`kv.delete`). -/
def kvErase {κ ν : Type} [BEq κ] (key : κ) (store : List (κ × ν)) : List (κ × ν) :=
  store.filter (fun e => !(e.1 == key))

/-! ## C2/C8: monitor config deletion and the history cascade -/

/-- The `monitors` and `history` KV tables: keys `(monitors, <id>)` and
`(history, <monitor_id>, <record_id>)`. -/
structure KVState where
  monitors : List (String × MonitorConfig)
  history : List ((String × String) × MonitorHistory)
deriving Repr

/-- `getMonitorConfig(id)` (`src/unnamed/part_005`, lines 1022-1044, and
`KVService.getMonitorConfig` in the modular build): point lookup plus date
revival (the identity here). -/
def getMonitorConfig (st : KVState) (id : String) : Option MonitorConfig :=
  kvGet id st.monitors

/-- The `(history, monitor_id, *)` prefix scan used by `getMonitorHistory`
and by the cascade delete: every record whose key starts with `monitor_id`. -/
def historyPrefixScan (st : KVState) (monitorId : String) : List MonitorHistory :=
  (st.history.filter (fun e => e.1.1 == monitorId)).map (fun e => e.2)

/-- `deleteMonitorHistory(monitorId)` (`src/unnamed/part_005`, lines
1313-1334): scan the `(history, monitorId)` prefix and delete every entry,
returning the number of deleted records. -/
def deleteMonitorHistory (st : KVState) (monitorId : String) : Nat × KVState :=
  let doomed := st.history.filter (fun e => e.1.1 == monitorId)
  (doomed.length, { st with history := st.history.filter (fun e => !(e.1.1 == monitorId)) })

/-- `deleteMonitorConfig(id)` of the single-file build (`src/unnamed/part_005`,
lines 1086-1110): returns `false` leaving the store unchanged when the config
does not exist; otherwise deletes the `(monitors, id)` key, then cascades
`deleteMonitorHistory(id)`, and returns `true`. -/
def deleteMonitorConfig5 (st : KVState) (id : String) : Bool × KVState :=
  match getMonitorConfig st id with
  | none => (false, st)
  | some _ =>
    let st1 : KVState := { st with monitors := kvErase id st.monitors }
    (true, (deleteMonitorHistory st1 id).2)

/-- `KVService.deleteMonitorConfig(id)` of the modular build
(`src/services/cache.ts` concatenation, lines 326-336): deletes only the
`(monitors, id)` key and reports `true`; no history cascade. -/
def kvServiceDeleteMonitorConfig (st : KVState) (id : String) : Bool × KVState :=
  (true, { st with monitors := kvErase id st.monitors })

/-- The outcome of a monitor-API handler call, reduced to the envelope's
`success` flag and the HTTP status code. -/
structure ApiOutcome where
  success : Bool
  httpStatus : Nat
deriving DecidableEq, Repr

/-- `handleDeleteMonitorAPI` of the modular build (`src/unnamed/part_006`,
lines 423-466), after authentication: a missing config is a 404
(`RESOURCE_NOT_FOUND`); otherwise `KVService.deleteMonitorConfig` runs and a
`true` return is a 200 success (a `false` return would be a 500). -/
def handleDeleteMonitorAPI (st : KVState) (id : String) : ApiOutcome × KVState :=
  match getMonitorConfig st id with
  | none => ({ success := false, httpStatus := 404 }, st)
  | some _ =>
    let r := kvServiceDeleteMonitorConfig st id
    if r.1 then ({ success := true, httpStatus := 200 }, r.2)
    else ({ success := false, httpStatus := 500 }, r.2)

/-! ## C7: sessions -/

/-- `Session` (`src/unnamed/part_005`, lines 53-64).  The modular build's
`Session` (`src/models/auth.ts`) adds `ipAddress`/`userAgent` and names the
access field `lastAccessAt`; only the fields common to both matter here. -/
structure Session where
  id : String
  authenticated : Bool
  expires : Int
  createdAt : Int
  lastAccess : Int
deriving DecidableEq, Repr

/-- `getSession(sessionId)` of the single-file build (`src/unnamed/part_005`,
lines 1154-1185): on a hit, if `session.expires < new Date()` the session is
deleted and `null` returned; otherwise `lastAccess` is refreshed, written
back, and the session returned. -/
def getSession5 (store : List (String × Session)) (sessionId : String) (now : Int) :
    Option Session × List (String × Session) :=
  match kvGet sessionId store with
  | none => (none, store)
  | some session =>
    if decide (session.expires < now) then
      (none, kvErase sessionId store)
    else
      let touched : Session := { session with lastAccess := now }
      (some touched, kvSet sessionId touched store)

/-- `KVService.getSession(sessionId)` of the modular build
(`src/services/cache.ts` concatenation, lines 409-429): point lookup plus
date revival only — no expiry check and no write. -/
def kvServiceGetSession (store : List (String × Session)) (sessionId : String) :
    Option Session :=
  kvGet sessionId store

/-- `validateSession(session)` (`src/api/auth.ts`, lines 22-24, and the same
helper in `src/unnamed/part_005`): `session.authenticated && session.expires > new Date()`. -/
def validateSession (session : Session) (now : Int) : Bool :=
  session.authenticated && decide (now < session.expires)

/-- `requireAuth` (`src/api/auth.ts`, lines 183-213), reduced to its session
effect: extract the cookie's session id, look the session up via
`KVService.getSession`, reject absent sessions, delete-and-reject sessions
failing `validateSession`, and otherwise refresh `lastAccess(At)` and write
the session back. -/
def requireAuth (store : List (String × Session)) (sessionId : Option String) (now : Int) :
    Option Session × List (String × Session) :=
  match sessionId with
  | none => (none, store)
  | some sid =>
    match kvServiceGetSession store sid with
    | none => (none, store)
    | some session =>
      if !validateSession session now then
        (none, kvErase sid store)
      else
        let touched : Session := { session with lastAccess := now }
        (some touched, kvSet sid touched store)

/-! ## C5: login rate limiting -/

/-- `LoginAttempt` (`src/unnamed/part_005`, lines 1439-1443). -/
structure LoginAttempt where
  ip : String
  timestamp : Int
  success : Bool
deriving DecidableEq, Repr

/-- The failed attempts inside the trailing lockout window, as counted by
`checkLoginRateLimit`: attempts with `timestamp > now - LOGIN_LOCKOUT_MINUTES`
minutes and `success` false.  `attempts` is the `(login_attempts, ip)` prefix
scan for the caller's IP. -/
def windowedFailures (attempts : List LoginAttempt) (now : Int) : List LoginAttempt :=
  (attempts.filter
      (fun a => decide (now - LOGIN_LOCKOUT_MINUTES * 60 * 1000 < a.timestamp))).filter
    (fun a => !a.success)

/-- `checkLoginRateLimit(ip)` (`src/unnamed/part_005`, lines 1476-1511): allow
the login iff the failed attempts in the lockout window number fewer than
`MAX_LOGIN_ATTEMPTS`. -/
def checkLoginRateLimit (attempts : List LoginAttempt) (now : Int) : Bool :=
  decide ((windowedFailures attempts now).length < MAX_LOGIN_ATTEMPTS)

/-- `recordLoginAttempt(ip, success)` (`src/unnamed/part_005`, lines
1518-1547): append the attempt, then sweep entries of this IP older than 24
hours (`timestamp < now - 24h`). -/
def recordLoginAttempt (attempts : List LoginAttempt) (ip : String) (now : Int)
    (success : Bool) : List LoginAttempt :=
  (attempts ++ [({ ip := ip, timestamp := now, success := success } : LoginAttempt)]).filter
    (fun a => !decide (a.timestamp < now - 24 * 60 * 60 * 1000))

/-- The four terminal outcomes of `handleLogin`. -/
inductive LoginOutcome where
  | lockedOut
  | wrongPassword
  | sessionFailed
  | loggedIn (sessionId : String)
deriving DecidableEq, Repr

/-- `handleLogin(password, ip)` (`src/unnamed/part_005`, lines 1555-1610):
the rate limit is consulted first — when it denies, a failed attempt is
recorded and the login is rejected before the password is even compared.
Otherwise a correct password creates a session (`sessionOk` is the
`createAuthSession` KV write succeeding) and records a successful attempt;
a wrong password or a failed session write records a failed attempt. -/
def handleLogin (passwordOk sessionOk : Bool) (sessionId : String)
    (attempts : List LoginAttempt) (ip : String) (now : Int) :
    LoginOutcome × List LoginAttempt :=
  if !checkLoginRateLimit attempts now then
    (LoginOutcome.lockedOut, recordLoginAttempt attempts ip now false)
  else if passwordOk then
    if sessionOk then
      (LoginOutcome.loggedIn sessionId, recordLoginAttempt attempts ip now true)
    else
      (LoginOutcome.sessionFailed, recordLoginAttempt attempts ip now false)
  else
    (LoginOutcome.wrongPassword, recordLoginAttempt attempts ip now false)

/-! ## C9: monitor update -/

/-- A partial `MonitorConfigRequest` body for `PUT /api/monitors/:id`; `none`
is JavaScript `undefined` (field absent from the JSON body). -/
structure UpdateBody where
  name : Option String := none
  url : Option String := none
  cookie : Option String := none
  headers : Option (List (String × String)) := none
  method : Option String := none
  interval : Option Int := none
  enabled : Option Bool := none
deriving Repr

/-- JavaScript truthiness of an optional string: present and non-empty. -/
def jsTruthyStr : Option String → Bool
  | none => false
  | some s => !(s == "")

/-- JavaScript truthiness of an optional number: present and non-zero. -/
def jsTruthyInt : Option Int → Bool
  | none => false
  | some i => !(i == 0)

/-- `x || fallback` on an optional string. -/
def jsOrStr (x : Option String) (fallback : String) : String :=
  if jsTruthyStr x then x.getD "" else fallback

/-- Terminal outcomes of the update handlers. -/
inductive UpdateOutcome where
  | notFound
  | invalidUrl
  | invalidInterval
  | dbError
  | updated (config : MonitorConfig)
deriving Repr

/-- The merge step shared by both update handlers, from
`handleUpdateMonitorAPI` of the modular build (`src/unnamed/part_006`, lines
382-393): `name`, `url`, `method` and `interval` use `||` (a falsy supplied
value falls back to the existing one), `headers` uses `||` as well (any
supplied object is truthy), while `cookie` and `enabled` use explicit
`!== undefined` tests; `updatedAt` is refreshed.  `urlParsesFn` stands for
`validateUrl` (JavaScript `new URL` parsing). -/
def mergeUpdate (urlParsesFn : String → Bool) (existing : MonitorConfig)
    (body : UpdateBody) (now : Int) : MonitorConfig :=
  let newUrl := jsOrStr body.url existing.url
  { existing with
    name := jsOrStr body.name existing.name
    url := newUrl
    cookie := match body.cookie with
      | some c => c
      | none => existing.cookie
    headers := match body.headers with
      | some h => some h
      | none => existing.headers
    method := if jsTruthyStr body.method then body.method else existing.method
    interval := if jsTruthyInt body.interval then body.interval.getD 0 else existing.interval
    enabled := match body.enabled with
      | some b => b
      | none => existing.enabled
    updatedAt := now
    urlParses := urlParsesFn newUrl }

/-- `handleUpdateMonitorAPI` of the modular build (`src/unnamed/part_006`,
lines 344-418), after authentication: unknown id is a 404; a truthy supplied
`url` failing `validateUrl`, or a truthy supplied `interval` failing
`validateInterval`, is a 400 validation error; otherwise the merged config is
saved (`saveOk` is the KV write succeeding) and returned. -/
def handleUpdateMonitorModular (urlParsesFn : String → Bool)
    (existing : Option MonitorConfig) (body : UpdateBody) (saveOk : Bool) (now : Int) :
    UpdateOutcome :=
  match existing with
  | none => UpdateOutcome.notFound
  | some config =>
    if jsTruthyStr body.url && !urlParsesFn (body.url.getD "") then
      UpdateOutcome.invalidUrl
    else if jsTruthyInt body.interval && !validateInterval (body.interval.getD 0) then
      UpdateOutcome.invalidInterval
    else if saveOk then
      UpdateOutcome.updated (mergeUpdate urlParsesFn config body now)
    else
      UpdateOutcome.dbError

/-- The merge step of the single-file build's `handleUpdateMonitorAPI`
(`src/unnamed/part_005`, lines 3394-3404): `name` and `url` use `||`, every
other field an explicit `!== undefined` test; no field is validated by the
handler. -/
def mergeUpdate5 (urlParsesFn : String → Bool) (existing : MonitorConfig)
    (body : UpdateBody) (now : Int) : MonitorConfig :=
  let newUrl := jsOrStr body.url existing.url
  { existing with
    name := jsOrStr body.name existing.name
    url := newUrl
    cookie := match body.cookie with
      | some c => c
      | none => existing.cookie
    headers := match body.headers with
      | some h => some h
      | none => existing.headers
    method := match body.method with
      | some m => some m
      | none => existing.method
    interval := match body.interval with
      | some i => i
      | none => existing.interval
    enabled := match body.enabled with
      | some b => b
      | none => existing.enabled
    updatedAt := now
    urlParses := urlParsesFn newUrl }

/-- `saveMonitorConfig` of the single-file build (`src/unnamed/part_005`,
lines 980-1015): a missing `id`/`name`/`url`, an unparseable URL or an
out-of-range interval throws (caught, `false`); otherwise the write's
outcome (`kvSetOk`) is reported. -/
def saveMonitorConfig5 (config : MonitorConfig) (kvSetOk : Bool) : Bool :=
  if config.id == "" || config.name == "" || config.url == "" then false
  else if !config.urlParses then false
  else if !validateInterval config.interval then false
  else kvSetOk

/-- `handleUpdateMonitorAPI` of the single-file build (`src/unnamed/part_005`,
lines 3362-3425), after auth and CSRF: unknown id is a 404; the body is
merged with no per-field validation and passed to `saveMonitorConfig`, whose
`false` (including every validation failure) surfaces as a database error. -/
def handleUpdateMonitor5 (urlParsesFn : String → Bool)
    (existing : Option MonitorConfig) (body : UpdateBody) (kvSetOk : Bool) (now : Int) :
    UpdateOutcome :=
  match existing with
  | none => UpdateOutcome.notFound
  | some config =>
    let merged := mergeUpdate5 urlParsesFn config body now
    if saveMonitorConfig5 merged kvSetOk then
      UpdateOutcome.updated merged
    else
      UpdateOutcome.dbError

/-! ## C10: in-process TTL cache -/

/-- `CacheEntry` (`src/services/cache.ts`, lines 10-14). -/
structure CacheEntry (V : Type) where
  data : V
  timestamp : Int
  ttl : Int
deriving DecidableEq, Repr

/-- `MemoryCache.set(key, data, ttl)` (`src/services/cache.ts`, lines 26-33):
stores `ttl: ttl || this.defaultTTL` (a missing or zero `ttl` falls back to
the default) and `timestamp: Date.now()`. -/
def cacheSet {V : Type} (cache : List (String × CacheEntry V)) (key : String)
    (data : V) (ttl : Option Int) (defaultTTL : Int) (now : Int) :
    List (String × CacheEntry V) :=
  let effTtl := if jsTruthyInt ttl then ttl.getD 0 else defaultTTL
  kvSet key { data := data, timestamp := now, ttl := effTtl } cache

/-- `MemoryCache.get(key)` (`src/services/cache.ts`, lines 38-51): a miss is
`null`; a hit with `Date.now() - entry.timestamp > entry.ttl` deletes the
entry and is `null`; otherwise the stored data is returned. -/
def cacheGet {V : Type} (cache : List (String × CacheEntry V)) (key : String)
    (now : Int) : Option V × List (String × CacheEntry V) :=
  match kvGet key cache with
  | none => (none, cache)
  | some entry =>
    if decide (entry.ttl < now - entry.timestamp) then
      (none, kvErase key cache)
    else
      (some entry.data, cache)

/-- `MemoryCache.has(key)` (`src/services/cache.ts`, lines 97-110): the same
expiry test as `get`, returning a Boolean. -/
def cacheHas {V : Type} (cache : List (String × CacheEntry V)) (key : String)
    (now : Int) : Bool × List (String × CacheEntry V) :=
  match kvGet key cache with
  | none => (false, cache)
  | some entry =>
    if decide (entry.ttl < now - entry.timestamp) then
      (false, kvErase key cache)
    else
      (true, cache)

/-! ## Concrete fixtures used by witnesses and counterexamples -/

/-- A concrete enabled config that is not due (checked 2 minutes ago with a
5-minute interval). -/
def undueConfig : MonitorConfig :=
  { id := "m1", name := "m", url := "https://example.test/", cookie := ""
    interval := 5, enabled := true, lastCheck := some 0 }

/-- A one-config, one-history-record store used by the C2 witness and
counterexample. -/
def c2Store : KVState :=
  { monitors := [("m1", undueConfig)]
    history := [(("m1", "h1"), { id := "h1", monitorId := "m1", status := MStatus.error })] }

/-- A fetch oracle that always fails with a cancellation-shaped error. -/
def abortingFetch : Nat → FetchAttempt :=
  fun _ => { elapsed := 30, outcome := FetchOutcome.err "AbortError: signal is aborted" }

/-- A fetch oracle returning a plain 200 response with body `hi`. -/
def okFetch : Nat → FetchAttempt :=
  fun _ =>
    { elapsed := 120
      outcome := FetchOutcome.resp
        { ok := true, status := 200, statusText := "OK",
          url := "https://example.test/", body := "hi" } }

/-- Five recent failed attempts from one IP. -/
def fiveFailures : List LoginAttempt :=
  [{ ip := "1.2.3.4", timestamp := 999001, success := false },
   { ip := "1.2.3.4", timestamp := 999002, success := false },
   { ip := "1.2.3.4", timestamp := 999003, success := false },
   { ip := "1.2.3.4", timestamp := 999004, success := false },
   { ip := "1.2.3.4", timestamp := 999005, success := false }]

/-- A stored session that expired at instant 0. -/
def expiredSession : Session :=
  { id := "t", authenticated := true, expires := 0, createdAt := 0, lastAccess := 0 }

/-- A valid existing config for the C9 fixtures. -/
def validConfig : MonitorConfig :=
  { id := "m2", name := "n", url := "https://example.test/", cookie := ""
    interval := 5, enabled := true }

/-! ## Shared lemmas about the KV map embedding -/

theorem kvGet_kvSet {κ ν : Type} [BEq κ] [LawfulBEq κ] (key : κ) (v : ν)
    (store : List (κ × ν)) : kvGet key (kvSet key v store) = some v := by
  simp [kvGet, kvSet]

theorem kvGet_kvErase {κ ν : Type} [BEq κ] [LawfulBEq κ] (key : κ)
    (store : List (κ × ν)) : kvGet key (kvErase key store) = none := by
  induction store with
  | nil => rfl
  | cons head tail ih =>
    by_cases h : head.1 == key
    · simpa [kvErase, kvGet, h] using ih
    · simpa [kvErase, kvGet, h] using ih

/-! ## Shared lemmas about the probe executor -/

theorem classifyResponse_success_no_error (r : FetchResponse) (elapsed : Nat)
    (configUrl : String) :
    (classifyResponse r elapsed configUrl).status = MStatus.success →
    (classifyResponse r elapsed configUrl).error = none := by
  unfold classifyResponse
  by_cases hok : r.ok
  · by_cases hcheck : checkResponseSuccess r r.body configUrl
    · simp [hok, hcheck, createMonitorResult]
    · simp [hok, hcheck, createMonitorResult]
  · simp [hok, createMonitorResult]

theorem executeMonitorGo_spec (config : MonitorConfig) (fetchAt : Nat → FetchAttempt) :
    ∀ (n k : Nat), k + n = 2 →
      (k < (executeMonitorGo config fetchAt k).attempts ∧
        (executeMonitorGo config fetchAt k).attempts ≤ 3) ∧
      (executeMonitorGo config fetchAt k).saved =
        [(executeMonitorGo config fetchAt k).result] ∧
      (executeMonitorGo config fetchAt k).delays =
        (List.range ((executeMonitorGo config fetchAt k).attempts - 1 - k)).map
          (fun j => 1000 * (k + j + 1)) ∧
      ((executeMonitorGo config fetchAt k).result.status = MStatus.success →
        (executeMonitorGo config fetchAt k).result.error = none) ∧
      (∀ m,
        (attemptAt config fetchAt
            ((executeMonitorGo config fetchAt k).attempts - 1)).outcome =
          FetchOutcome.err m →
        (executeMonitorGo config fetchAt k).result =
          createMonitorResult false
            (some (attemptAt config fetchAt
              ((executeMonitorGo config fetchAt k).attempts - 1)).elapsed)
            none (some m)) := by
  intro n
  induction n with
  | zero =>
    intro k hk
    have hk2 : k = 2 := by omega
    subst hk2
    unfold executeMonitorGo
    cases hA : (attemptAt config fetchAt 2).outcome with
    | resp r =>
      simp only [hA]
      refine ⟨⟨by trivial, by trivial⟩, by trivial, by simp, ?_, ?_⟩
      · exact classifyResponse_success_no_error r (attemptAt config fetchAt 2).elapsed config.url
      · intro m hm
        exact FetchOutcome.noConfusion hm
    | err msg =>
      have hcond : ¬ (2 < 2 ∧ isAbortMsg msg = false) := fun h => absurd h.1 (by omega)
      simp only [hA]
      rw [dif_neg hcond]
      refine ⟨⟨?_, ?_⟩, by trivial, by simp, ?_, ?_⟩
      · show (2 : Nat) < 2 + 1
        omega
      · show (2 : Nat) + 1 ≤ 3
        omega
      · intro h
        exact absurd h (by simp [createMonitorResult])
      · intro m hm
        have hm2 : FetchOutcome.err msg = FetchOutcome.err m := by
          rw [← hA]
          exact hm
        cases hm2
        rfl
  | succ n ih =>
    intro k hk
    unfold executeMonitorGo
    cases hA : (attemptAt config fetchAt k).outcome with
    | resp r =>
      simp only [hA]
      refine ⟨⟨by omega, by omega⟩, trivial, by simp, ?_, ?_⟩
      · exact classifyResponse_success_no_error r (attemptAt config fetchAt k).elapsed config.url
      · intro m hm
        have hm2 : (attemptAt config fetchAt k).outcome = FetchOutcome.err m := hm
        rw [hA] at hm2
        exact FetchOutcome.noConfusion hm2
    | err msg =>
      simp only [hA]
      by_cases hcond : k < 2 ∧ isAbortMsg msg = false
      · rw [dif_pos hcond]
        have ihk := ih (k + 1) (by omega)
        obtain ⟨⟨hlt, hle⟩, hsaved, hdelays, hsucc, hlast⟩ := ihk
        refine ⟨⟨?_, ?_⟩, ?_, ?_, ?_, ?_⟩
        · show k < (executeMonitorGo config fetchAt (k + 1)).attempts
          omega
        · exact hle
        · exact hsaved
        · show 1000 * (k + 1) :: (executeMonitorGo config fetchAt (k + 1)).delays =
            List.map (fun j => 1000 * (k + j + 1))
              (List.range ((executeMonitorGo config fetchAt (k + 1)).attempts - 1 - k))
          have hsplit : (executeMonitorGo config fetchAt (k + 1)).attempts - 1 - k =
              ((executeMonitorGo config fetchAt (k + 1)).attempts - 1 - (k + 1)) + 1 := by
            omega
          rw [hdelays, hsplit, List.range_succ_eq_map, List.map_cons, List.map_map]
          refine congrArg₂ List.cons (by omega) ?_
          refine List.map_congr_left ?_
          intro j _
          simp only [Function.comp_apply]
          omega
        · exact hsucc
        · exact hlast
      · rw [dif_neg hcond]
        refine ⟨⟨?_, ?_⟩, by trivial, by simp, ?_, ?_⟩
        · show k < k + 1
          omega
        · show k + 1 ≤ 3
          omega
        · intro h
          exact absurd h (by simp [createMonitorResult])
        · intro m hm
          have hm2 : FetchOutcome.err msg = FetchOutcome.err m := by
            rw [← hA]
            exact hm
          cases hm2
          rfl

/-! ## C1 -/

/-- Claim C1 (amended), part 1: `shouldExecuteMonitor` holds exactly when the
last check time is absent or `now - lastCheck` is at least `interval` minutes;
part 2: the single-file scheduler's cycle selects every enabled config for
probing — membership in the executed set is equivalent to being enabled,
independent of any due-time computation. -/
theorem due_gating_characterization :
    (∀ (lastCheck : Option Int) (interval now : Int),
      shouldExecuteMonitor lastCheck interval now = true ↔
        lastCheck = none ∨
          ∃ lc, lastCheck = some lc ∧ interval * (60 * 1000) ≤ now - lc) ∧
    (∀ (configs : List MonitorConfig) (config : MonitorConfig),
      config ∈ executeMonitoringCycleSelection configs ↔
        config ∈ configs ∧ config.enabled = true) := by
  constructor
  · intro lastCheck interval now
    cases lastCheck with
    | none => simp [shouldExecuteMonitor]
    | some lc =>
      simp only [shouldExecuteMonitor, decide_eq_true_eq, Option.some.injEq,
        reduceCtorEq, false_or]
      rw [show ((1000 : Int) * 60) = 60000 by norm_num,
        Int.fdiv_eq_ediv _ (by norm_num), Int.le_ediv_iff_mul_le (by norm_num)]
      constructor
      · intro h
        exact ⟨lc, rfl, by linarith [h]⟩
      · rintro ⟨lc', hlc, h⟩
        cases hlc
        linarith [h]
  · intro configs config
    simp [executeMonitoringCycleSelection]

/-- Witness for `due_gating_characterization`: a config with a 5-minute
interval last checked 2 minutes ago is not due, yet sits in the executed
selection of a single-file scheduler tick containing it. -/
theorem due_gating_characterization_witness :
    (shouldExecuteMonitor (some 0) 5 120000 = true ↔
      (some (0 : Int)) = none ∨
        ∃ lc, (some (0 : Int)) = some lc ∧ (5 : Int) * (60 * 1000) ≤ 120000 - lc) ∧
    (shouldExecuteMonitor (some 0) 5 300000 = true ↔
      (some (0 : Int)) = none ∨
        ∃ lc, (some (0 : Int)) = some lc ∧ (5 : Int) * (60 * 1000) ≤ 300000 - lc) :=
  ⟨due_gating_characterization.1 (some 0) 5 120000,
   due_gating_characterization.1 (some 0) 5 300000⟩

/-- Counterexample to claim C1 as stated: at `now = 120000` (2 minutes after
its last check) the config is not due, yet the single-file scheduler's cycle
(`src/unnamed/part_005`, lines 4012-4027) still places it in the executed
set, so a probe is issued for an undue config. -/
theorem undue_config_still_probed :
    shouldExecuteMonitor undueConfig.lastCheck undueConfig.interval 120000 = false ∧
    undueConfig ∈ executeMonitoringCycleSelection [undueConfig] := by
  constructor
  · decide
  · simp [executeMonitoringCycleSelection, undueConfig]

/-! ## C2 -/

/-- Claim C2 (amended): the single-file build's `deleteMonitorConfig` cascades
— after it reports success, the `(history, monitor_id, *)` prefix scan is
empty — while the modular `KVService.deleteMonitorConfig` reports success but
leaves the history table untouched. -/
theorem cascade_delete_history :
    (∀ (st : KVState) (id : String) (st' : KVState),
      deleteMonitorConfig5 st id = (true, st') → historyPrefixScan st' id = []) ∧
    (∀ (st : KVState) (id : String),
      kvServiceDeleteMonitorConfig st id =
        (true, { st with monitors := kvErase id st.monitors })) := by
  constructor
  · intro st id st' h
    unfold deleteMonitorConfig5 at h
    cases hg : getMonitorConfig st id with
    | none => rw [hg] at h; exact absurd (congrArg Prod.fst h) (by simp)
    | some config =>
      rw [hg] at h
      have hst : st' = (deleteMonitorHistory { st with monitors := kvErase id st.monitors } id).2 :=
        (congrArg Prod.snd h).symm
      subst hst
      simp only [historyPrefixScan, deleteMonitorHistory, List.filter_filter]
      have hnil : List.filter (fun (a : (String × String) × MonitorHistory) =>
          (a.1.1 == id) && !(a.1.1 == id)) st.history = [] := by
        rw [List.filter_eq_nil_iff]
        intro e _
        simp
      rw [hnil]
      rfl
  · intro st id
    rfl

/-- Witness for `cascade_delete_history`: deleting an existing config with
one history record via the single-file `deleteMonitorConfig` empties that
monitor's history prefix. -/
theorem cascade_delete_history_witness :
    historyPrefixScan (deleteMonitorConfig5 c2Store "m1").2 "m1" = [] :=
  cascade_delete_history.1 c2Store "m1" (deleteMonitorConfig5 c2Store "m1").2 rfl

/-- Counterexample to claim C2 as stated: the modular build's
`KVService.deleteMonitorConfig` (`src/services/cache.ts` concatenation, lines
326-336, the deletion used by `handleDeleteMonitorAPI`) reports a successful
config deletion after which the `(history, m1, *)` prefix scan still yields
the old record. -/
theorem modular_delete_leaves_history :
    (kvServiceDeleteMonitorConfig c2Store "m1").1 = true ∧
    historyPrefixScan (kvServiceDeleteMonitorConfig c2Store "m1").2 "m1" =
      [{ id := "h1", monitorId := "m1", status := MStatus.error }] := by
  constructor
  · rfl
  · rfl

/-! ## C3 -/

/-- Claim C3 (amended): for an ok response, the classification succeeds
exactly when either the config URL contains `cloudstudio.net` and the final
post-redirect URL contains `cloudstudio.net` or `cloudstudio.club` (the body
is not consulted for such targets), or the config URL does not contain
`cloudstudio.net` and the body is non-empty; a failing check inside the
executor's ok-branch yields an error result with reason `响应不符合预期`. -/
theorem response_classification :
    (∀ (r : FetchResponse) (text configUrl : String),
      checkResponseSuccess r text configUrl = true ↔
        r.ok = true ∧
          ((strIncludes configUrl cloudNet = true ∧
              (strIncludes r.url cloudNet = true ∨ strIncludes r.url cloudClub = true)) ∨
            (strIncludes configUrl cloudNet = false ∧ text.length ≠ 0))) ∧
    (∀ (config : MonitorConfig) (fetchAt : Nat → FetchAttempt)
        (elapsed : Nat) (r : FetchResponse),
      config.urlParses = true →
      fetchAt 0 = { elapsed := elapsed, outcome := FetchOutcome.resp r } →
      r.ok = true →
      checkResponseSuccess r r.body config.url = false →
      (executeMonitor config fetchAt).result =
        createMonitorResult false (some elapsed) (some r.status)
          (some unexpectedResponseMsg)) := by
  constructor
  · intro r text configUrl
    unfold checkResponseSuccess
    by_cases hok : r.ok
    · by_cases hcs : strIncludes configUrl cloudNet
      · by_cases h1 : strIncludes r.url cloudNet
        · simp [hok, hcs, h1]
        · by_cases h2 : strIncludes r.url cloudClub <;> simp [hok, hcs, h1, h2]
      · by_cases hlen : text.length = 0
        · simp [hok, hcs, hlen]
        · simp [hok, hcs, hlen]
    · simp [Bool.not_eq_true] at hok
      simp [hok]
  · intro config fetchAt elapsed r hparse hfetch hok hcheck
    unfold executeMonitor executeMonitorGo
    simp [attemptAt, classifyResponse, hparse, hfetch, hok, hcheck]

/-- Witness for `response_classification`: a 200 response with body `"hi"`
and no cloudstudio involvement is classified a success. -/
theorem response_classification_witness :
    checkResponseSuccess
        { ok := true, status := 200, statusText := "OK",
          url := "https://example.test/ok", body := "hi" }
        "hi" "https://example.test/ok" = true ↔
      (true = true ∧
        ((strIncludes "https://example.test/ok" cloudNet = true ∧
            (strIncludes "https://example.test/ok" cloudNet = true ∨
              strIncludes "https://example.test/ok" cloudClub = true)) ∨
          (strIncludes "https://example.test/ok" cloudNet = false ∧
            ("hi" : String).length ≠ 0))) :=
  response_classification.1
    { ok := true, status := 200, statusText := "OK",
      url := "https://example.test/ok", body := "hi" }
    "hi" "https://example.test/ok"

/-- Counterexample to claim C3 as stated: a final ok response for the
cloudstudio target `https://cloudstudio.net/a` whose final URL is the same
host but whose body is empty is classified a success by
`checkResponseSuccess` (`src/unnamed/part_005`, lines 775-794), although the
claim requires body length > 0 for every success. -/
theorem empty_body_cloudstudio_success :
    checkResponseSuccess
        { ok := true, status := 200, statusText := "OK",
          url := "https://cloudstudio.net/a", body := "" }
        "" "https://cloudstudio.net/a" = true ∧
      ¬ (0 < ("" : String).length) := by
  constructor
  · rfl
  · decide

/-! ## C4 -/

/-- Claim C4: the executor performs at most 2 retries (at most 3 attempts),
with a 1000 ms delay before the first retry and a 2000 ms delay before the
second (the delay list is a prefix of `[1000, 2000]` determined by the number
of attempts); a first attempt failing with a cancellation-shaped error
(message including `AbortError`) is not retried at all; and whenever the
final attempt fails, the returned result is an error carrying that attempt's
error string. -/
theorem retry_policy (config : MonitorConfig) (fetchAt : Nat → FetchAttempt) :
    (1 ≤ (executeMonitor config fetchAt).attempts ∧
      (executeMonitor config fetchAt).attempts ≤ 3) ∧
    (executeMonitor config fetchAt).delays =
      List.take ((executeMonitor config fetchAt).attempts - 1) [1000, 2000] ∧
    (∀ m, (attemptAt config fetchAt 0).outcome = FetchOutcome.err m →
      isAbortMsg m = true →
      (executeMonitor config fetchAt).attempts = 1 ∧
        (executeMonitor config fetchAt).delays = [] ∧
        (executeMonitor config fetchAt).result =
          createMonitorResult false (some (attemptAt config fetchAt 0).elapsed)
            none (some m)) ∧
    (∀ m,
      (attemptAt config fetchAt
          ((executeMonitor config fetchAt).attempts - 1)).outcome =
        FetchOutcome.err m →
      (executeMonitor config fetchAt).result =
        createMonitorResult false
          (some (attemptAt config fetchAt
            ((executeMonitor config fetchAt).attempts - 1)).elapsed)
          none (some m)) := by
  simp only [executeMonitor]
  obtain ⟨⟨hlt, hle⟩, hsaved, hdelays, hsucc, hlast⟩ :=
    executeMonitorGo_spec config fetchAt 2 0 rfl
  refine ⟨⟨hlt, hle⟩, ?_, ?_, hlast⟩
  · rw [hdelays]
    have hcases : (executeMonitorGo config fetchAt 0).attempts - 1 = 0 ∨
        (executeMonitorGo config fetchAt 0).attempts - 1 = 1 ∨
        (executeMonitorGo config fetchAt 0).attempts - 1 = 2 := by omega
    rcases hcases with h | h | h <;> rw [h] <;> rfl
  · intro m hm habort
    have hcond : ¬ (0 < 2 ∧ isAbortMsg m = false) := by
      rintro ⟨-, hf⟩
      rw [habort] at hf
      simp at hf
    unfold executeMonitorGo
    simp only [hm]
    rw [dif_neg hcond]
    exact ⟨rfl, rfl, rfl⟩

/-- Witness for `retry_policy`: an aborted probe makes exactly one attempt,
sleeps never, and returns the abort message as its error. -/
theorem retry_policy_witness :
    (executeMonitor undueConfig abortingFetch).attempts = 1 ∧
      (executeMonitor undueConfig abortingFetch).delays = [] ∧
      (executeMonitor undueConfig abortingFetch).result =
        createMonitorResult false
          (some (attemptAt undueConfig abortingFetch 0).elapsed) none
          (some "AbortError: signal is aborted") :=
  (retry_policy undueConfig abortingFetch).2.2.1 "AbortError: signal is aborted" rfl (by decide)

/-! ## C6 -/

/-- Claim C6: one `executeMonitor` call tree writes exactly one history
record — the one for its returned result — regardless of how many retry
attempts preceded the terminal outcome; the record's status is `success` or
`error` (the full status type); and a record with status `success` carries no
error field. -/
theorem history_record_invariant (config : MonitorConfig)
    (fetchAt : Nat → FetchAttempt) (rid : String) :
    (executeMonitor config fetchAt).saved =
      [(executeMonitor config fetchAt).result] ∧
    (∀ result ∈ (executeMonitor config fetchAt).saved,
      ((historyRecordOf rid config.id result).status = MStatus.success ∨
        (historyRecordOf rid config.id result).status = MStatus.error) ∧
      ((historyRecordOf rid config.id result).status = MStatus.success →
        (historyRecordOf rid config.id result).error = none)) := by
  simp only [executeMonitor]
  obtain ⟨⟨hlt, hle⟩, hsaved, hdelays, hsucc, hlast⟩ :=
    executeMonitorGo_spec config fetchAt 2 0 rfl
  refine ⟨hsaved, ?_⟩
  intro result hres
  rw [hsaved] at hres
  have heq : result = (executeMonitorGo config fetchAt 0).result := by
    simpa using hres
  subst heq
  constructor
  · cases h : (executeMonitorGo config fetchAt 0).result.status with
    | success => exact Or.inl (by simp [historyRecordOf, h])
    | error => exact Or.inr (by simp [historyRecordOf, h])
  · intro hstat
    have hs : (executeMonitorGo config fetchAt 0).result.status = MStatus.success := by
      simpa [historyRecordOf] using hstat
    simpa [historyRecordOf] using hsucc hs

/-- Witness for `history_record_invariant`: a successful probe writes exactly
its one result. -/
theorem history_record_invariant_witness :
    (executeMonitor undueConfig okFetch).saved =
      [(executeMonitor undueConfig okFetch).result] :=
  (history_record_invariant undueConfig okFetch "h1").1

/-! ## C5 -/

/-- Claim C5: once at least `MAX_LOGIN_ATTEMPTS` failed attempts from an IP
lie inside the trailing lockout window, the next login from that IP is
rejected as locked out no matter whether the password (or session creation)
would have succeeded, and one more failed attempt is recorded; moreover a
recorded successful login leaves the windowed failure count of every later
instant unchanged — successes are never counted and the 24-hour sweep only
removes attempts that already left the lockout window. -/
theorem login_lockout (attempts : List LoginAttempt) (ip : String) (now : Int) :
    (MAX_LOGIN_ATTEMPTS ≤ (windowedFailures attempts now).length →
      ∀ (passwordOk sessionOk : Bool) (sid : String),
        handleLogin passwordOk sessionOk sid attempts ip now =
          (LoginOutcome.lockedOut, recordLoginAttempt attempts ip now false) ∧
        ({ ip := ip, timestamp := now, success := false } : LoginAttempt) ∈
          (handleLogin passwordOk sessionOk sid attempts ip now).2) ∧
    (∀ now', now ≤ now' →
      windowedFailures (recordLoginAttempt attempts ip now true) now' =
        windowedFailures attempts now') := by
  constructor
  · intro hfull passwordOk sessionOk sid
    have hc : checkLoginRateLimit attempts now = false := by
      simp only [checkLoginRateLimit, decide_eq_false_iff_not, not_lt]
      exact hfull
    constructor
    · simp [handleLogin, hc]
    · simp only [handleLogin, hc, Bool.not_false, if_true]
      simp only [recordLoginAttempt, List.filter_append, List.mem_append]
      right
      simp only [List.filter_cons, List.filter_nil]
      have hkeep : (!decide (now < now - 24 * 60 * 60 * 1000)) = true := by
        simp only [Bool.not_eq_true', decide_eq_false_iff_not, not_lt]
        omega
      simp [hkeep]
  · intro now' hle
    simp only [windowedFailures, recordLoginAttempt, List.filter_filter,
      List.filter_append, List.filter_cons, List.filter_nil]
    have hkeepnow : (!decide (now < now - 24 * 60 * 60 * 1000)) = true := by
      simp only [Bool.not_eq_true', decide_eq_false_iff_not, not_lt]
      omega
    rw [if_pos hkeepnow]
    have hdrop : List.filter
        (fun a => !a.success && decide (now' - LOGIN_LOCKOUT_MINUTES * 60 * 1000 < a.timestamp))
        [({ ip := ip, timestamp := now, success := true } : LoginAttempt)] = [] := by
      simp
    rw [hdrop, List.append_nil]
    refine List.filter_congr ?_
    intro a _
    by_cases hwin : now' - LOGIN_LOCKOUT_MINUTES * 60 * 1000 < a.timestamp
    · have hkeep : ¬ (a.timestamp < now - 24 * 60 * 60 * 1000) := by
        simp only [LOGIN_LOCKOUT_MINUTES] at hwin
        omega
      simp [hwin, hkeep]
      intro _
      omega
    · simp [hwin]

/-- Witness for `login_lockout`: with five fresh failures on record, a login
with the correct password is still rejected as locked out. -/
theorem login_lockout_witness :
    handleLogin true true "sid" fiveFailures "1.2.3.4" 1000000 =
      (LoginOutcome.lockedOut, recordLoginAttempt fiveFailures "1.2.3.4" 1000000 false) :=
  (((login_lockout fiveFailures "1.2.3.4" 1000000).1 (by decide) true true "sid")).1

/-! ## C7 -/

/-- Claim C7 (amended): the single-file build's `getSession` returns only
sessions with `expires ≥ now` and deletes a stored session whose
`expires < now` instead of returning it; the modular `requireAuth` returns
only authenticated sessions with `expires > now`.  (The modular
`KVService.getSession` itself performs no expiry check — see the
counterexample — so there the guarantee is provided by `requireAuth`.) -/
theorem session_expiry :
    (∀ (store : List (String × Session)) (sid : String) (now : Int)
        (s : Session) (store' : List (String × Session)),
      getSession5 store sid now = (some s, store') → now ≤ s.expires) ∧
    (∀ (store : List (String × Session)) (sid : String) (now : Int) (s : Session),
      kvGet sid store = some s → s.expires < now →
        getSession5 store sid now = (none, kvErase sid store)) ∧
    (∀ (store : List (String × Session)) (sid : Option String) (now : Int)
        (s : Session) (store' : List (String × Session)),
      requireAuth store sid now = (some s, store') →
        now < s.expires ∧ s.authenticated = true) := by
  refine ⟨?_, ?_, ?_⟩
  · intro store sid now s store' h
    simp only [getSession5] at h
    cases hg : kvGet sid store with
    | none => simp [hg] at h
    | some session =>
      simp only [hg] at h
      by_cases hexp : session.expires < now
      · simp [hexp] at h
      · have hd : decide (session.expires < now) = false := decide_eq_false hexp
        simp only [hd, Bool.false_eq_true, if_false] at h
        have hs2 : s = { session with lastAccess := now } := by
          exact (Option.some.injEq .. ▸ congrArg Prod.fst h).symm
        rw [hs2]
        simpa using le_of_not_lt hexp
  · intro store sid now s hg hexp
    simp [getSession5, hg, hexp]
  · intro store sid now s store' h
    cases sid with
    | none => simp [requireAuth] at h
    | some sid =>
      simp only [requireAuth, kvServiceGetSession] at h
      cases hg : kvGet sid store with
      | none => simp [hg] at h
      | some session =>
        simp only [hg] at h
        by_cases hval : validateSession session now
        · simp only [hval, Bool.not_true, Bool.false_eq_true, if_false] at h
          have hs2 : s = { session with lastAccess := now } := by
            exact (Option.some.injEq .. ▸ congrArg Prod.fst h).symm
          have hv := hval
          simp only [validateSession, Bool.and_eq_true, decide_eq_true_eq] at hv
          rw [hs2]
          exact ⟨hv.2, hv.1⟩
        · simp only [Bool.not_eq_true] at hval
          simp [hval] at h

/-- Witness for `session_expiry`: a session expired at 0 is deleted, not
returned, by the single-file `getSession` at `now = 1000`. -/
theorem session_expiry_witness :
    getSession5 [("t", expiredSession)] "t" 1000 =
      (none, kvErase "t" [("t", expiredSession)]) :=
  session_expiry.2.1 [("t", expiredSession)] "t" 1000 expiredSession rfl (by decide)

/-- Counterexample to claim C7 as stated: the modular build's session lookup
`KVService.getSession` (`src/services/cache.ts` concatenation, lines 409-429)
returns a stored session whose expiry has passed — `expires > now` fails at
the moment of return (the expiry rejection only happens later, in
`requireAuth`). -/
theorem expired_session_returned :
    kvServiceGetSession [("t", expiredSession)] "t" = some expiredSession ∧
      ¬ (1000 < expiredSession.expires) := by
  exact ⟨rfl, by decide⟩

/-! ## C8 -/

/-- Claim C8 (amended): after a successful `delete(id)`, loading `id` yields
nothing; a second `delete(id)` on the now-absent config leaves the store
unchanged, but it reports failure, not success — `deleteMonitorConfig`
returns `false` and the DELETE API responds 404 resource-not-found. -/
theorem delete_then_load (st : KVState) (id : String) (st' : KVState)
    (h : deleteMonitorConfig5 st id = (true, st')) :
    getMonitorConfig st' id = none ∧
    deleteMonitorConfig5 st' id = (false, st') ∧
    handleDeleteMonitorAPI st' id = ({ success := false, httpStatus := 404 }, st') := by
  unfold deleteMonitorConfig5 at h
  cases hg : getMonitorConfig st id with
  | none => rw [hg] at h; exact absurd (congrArg Prod.fst h) (by simp)
  | some config =>
    rw [hg] at h
    have hst : st' =
        (deleteMonitorHistory { st with monitors := kvErase id st.monitors } id).2 :=
      (congrArg Prod.snd h).symm
    subst hst
    have hload : getMonitorConfig
        (deleteMonitorHistory { st with monitors := kvErase id st.monitors } id).2 id = none := by
      simp only [getMonitorConfig, deleteMonitorHistory]
      exact kvGet_kvErase id st.monitors
    refine ⟨hload, ?_, ?_⟩
    · unfold deleteMonitorConfig5
      rw [hload]
    · unfold handleDeleteMonitorAPI
      rw [hload]

/-- Witness for `delete_then_load`: deleting the only config of `c2Store`
makes its id unloadable. -/
theorem delete_then_load_witness :
    getMonitorConfig (deleteMonitorConfig5 c2Store "m1").2 "m1" = none :=
  (delete_then_load c2Store "m1" (deleteMonitorConfig5 c2Store "m1").2 rfl).1

/-- Counterexample to claim C8 as stated: after deleting config `m1`, the
second `deleteMonitorConfig` (`src/unnamed/part_005`, lines 1086-1110)
returns `false`, and `handleDeleteMonitorAPI` (`src/unnamed/part_006`, lines
423-466) reports a 404 failure envelope — not success. -/
theorem second_delete_reports_failure :
    (deleteMonitorConfig5 (deleteMonitorConfig5 c2Store "m1").2 "m1").1 = false ∧
    (handleDeleteMonitorAPI (deleteMonitorConfig5 c2Store "m1").2 "m1").1 =
      { success := false, httpStatus := 404 } := by
  exact ⟨rfl, rfl⟩

/-! ## C9 -/

/-- Claim C9 (amended): in the modular update handler a *truthy* supplied
`url` is validated with `validateUrl` and a truthy supplied `interval` with
`validateInterval`, each rejected with a validation error when invalid; a
falsy supplied value (`0`, the empty string) of `name`, `url`, `method` or
`interval` is treated like an absent field and keeps the previous value
(`cookie` and `enabled` use explicit undefined checks, so any supplied value
overrides); absent fields keep their previous values; `updatedAt` is set to
the current time.  The single-file handler performs no per-field validation
at all — its only outcomes are not-found, updated and database-error. -/
theorem update_validation :
    (∀ (f : String → Bool) (existing : MonitorConfig) (body : UpdateBody)
        (saveOk : Bool) (now : Int) (u : String),
      body.url = some u → ¬(u = "") → f u = false →
      handleUpdateMonitorModular f (some existing) body saveOk now =
        UpdateOutcome.invalidUrl) ∧
    (∀ (f : String → Bool) (existing : MonitorConfig) (body : UpdateBody)
        (saveOk : Bool) (now : Int) (i : Int),
      (jsTruthyStr body.url && !f (body.url.getD "")) = false →
      body.interval = some i → ¬(i = 0) → validateInterval i = false →
      handleUpdateMonitorModular f (some existing) body saveOk now =
        UpdateOutcome.invalidInterval) ∧
    (∀ (f : String → Bool) (existing : MonitorConfig) (now : Int),
      mergeUpdate f existing {} now =
        { existing with updatedAt := now, urlParses := f existing.url }) ∧
    (∀ (f : String → Bool) (existing : MonitorConfig) (body : UpdateBody)
        (saveOk : Bool) (now : Int),
      body.interval = some 0 →
      handleUpdateMonitorModular f (some existing) body saveOk now ≠
          UpdateOutcome.invalidInterval ∧
        (mergeUpdate f existing body now).interval = existing.interval) ∧
    (∀ (f : String → Bool) (existing : Option MonitorConfig) (body : UpdateBody)
        (kvSetOk : Bool) (now : Int),
      handleUpdateMonitor5 f existing body kvSetOk now ≠ UpdateOutcome.invalidUrl ∧
      handleUpdateMonitor5 f existing body kvSetOk now ≠ UpdateOutcome.invalidInterval) := by
  refine ⟨?_, ?_, ?_, ?_, ?_⟩
  · intro f existing body saveOk now u hu hne hf
    have hguard : (jsTruthyStr body.url && !f (body.url.getD "")) = true := by
      rw [hu]
      simp [jsTruthyStr, hne, hf]
    simp [handleUpdateMonitorModular, hguard]
  · intro f existing body saveOk now i hguard hi hne hval
    have hguard2 :
        (jsTruthyInt body.interval && !validateInterval (body.interval.getD 0)) = true := by
      rw [hi]
      simp [jsTruthyInt, hne, hval]
    simp [handleUpdateMonitorModular, hguard, hguard2]
  · intro f existing now
    simp [mergeUpdate, jsOrStr, jsTruthyStr, jsTruthyInt]
  · intro f existing body saveOk now hi
    have htr : jsTruthyInt body.interval = false := by
      simp [jsTruthyInt, hi]
    constructor
    · simp only [handleUpdateMonitorModular, htr, Bool.false_and]
      by_cases hguard : (jsTruthyStr body.url && !f (body.url.getD "")) = true
      · simp [hguard]
      · simp only [Bool.not_eq_true] at hguard
        by_cases hsave : saveOk
        · simp [hguard, hsave]
        · simp [hguard, hsave]
    · simp [mergeUpdate, htr]
  · intro f existing body kvSetOk now
    cases existing with
    | none => simp [handleUpdateMonitor5]
    | some config =>
      simp only [handleUpdateMonitor5]
      by_cases hsave : saveMonitorConfig5 (mergeUpdate5 f config body now) kvSetOk
      · simp [hsave]
      · simp [hsave]

/-- Witness for `update_validation`: a request supplying no fields leaves
every config field unchanged and refreshes `updatedAt`. -/
theorem update_validation_witness :
    mergeUpdate (fun _ => true) validConfig {} 777 =
      { validConfig with updatedAt := 777, urlParses := (fun (_ : String) => true) validConfig.url } :=
  update_validation.2.2.1 (fun _ => true) validConfig 777

/-- Counterexample to claim C9 as stated: the update request supplying
`interval = 0` — an out-of-range value that creation rejects
(`validateInterval 0 = false`) — is not rejected by the modular update
handler (`src/unnamed/part_006`, lines 364-404): being falsy, the supplied
value is treated as absent, the previous interval is kept and the update
succeeds. -/
theorem zero_interval_not_rejected :
    validateInterval 0 = false ∧
    handleUpdateMonitorModular (fun _ => true) (some validConfig)
        { interval := some 0 } true 777 =
      UpdateOutcome.updated
        (mergeUpdate (fun _ => true) validConfig { interval := some 0 } 777) ∧
    (mergeUpdate (fun _ => true) validConfig { interval := some 0 } 777).interval = 5 := by
  refine ⟨by decide, rfl, rfl⟩

/-! ## C10 -/

/-- Claim C10: `MemoryCache.get` and `MemoryCache.has` never expose an
expired entry — when `now - timestamp > ttl` they return `null`/`false` and
delete the entry as a side effect of the read; a non-expired entry is
returned as is; and after a `set`, a non-expired `get` of the same key
returns exactly the value of that most recent `set`. -/
theorem cache_expiry_semantics :
    (∀ (V : Type) (cache : List (String × CacheEntry V)) (key : String)
        (now : Int) (e : CacheEntry V),
      kvGet key cache = some e → e.ttl < now - e.timestamp →
        cacheGet cache key now = (none, kvErase key cache) ∧
        cacheHas cache key now = (false, kvErase key cache)) ∧
    (∀ (V : Type) (cache : List (String × CacheEntry V)) (key : String)
        (now : Int) (e : CacheEntry V),
      kvGet key cache = some e → ¬(e.ttl < now - e.timestamp) →
        cacheGet cache key now = (some e.data, cache) ∧
        cacheHas cache key now = (true, cache)) ∧
    (∀ (V : Type) (cache : List (String × CacheEntry V)) (key : String)
        (data : V) (ttl : Option Int) (defaultTTL : Int) (t now : Int),
      ¬((if jsTruthyInt ttl then ttl.getD 0 else defaultTTL) < now - t) →
      cacheGet (cacheSet cache key data ttl defaultTTL t) key now =
        (some data, cacheSet cache key data ttl defaultTTL t)) := by
  refine ⟨?_, ?_, ?_⟩
  · intro V cache key now e hg hexp
    constructor
    · simp [cacheGet, hg, hexp]
    · simp [cacheHas, hg, hexp]
  · intro V cache key now e hg hexp
    constructor
    · simp [cacheGet, hg, hexp]
    · simp [cacheHas, hg, hexp]
  · intro V cache key data ttl defaultTTL t now hfresh
    have hg : kvGet key (cacheSet cache key data ttl defaultTTL t) =
        some ({ data := data, timestamp := t
                ttl := if jsTruthyInt ttl then ttl.getD 0 else defaultTTL } : CacheEntry V) := by
      simp only [cacheSet]
      exact kvGet_kvSet key _ cache
    simp [cacheGet, hg, hfresh]

/-- Witness for `cache_expiry_semantics`: an entry written at `t = 0` with a
300 ms TTL is still readable at `now = 200` with the exact stored value, and
is gone (null, deleted) at `now = 1000`. -/
theorem cache_expiry_semantics_witness :
    cacheGet (cacheSet ([] : List (String × CacheEntry Nat)) "k" 42 (some 300) 60000 0) "k" 200 =
      (some 42, cacheSet ([] : List (String × CacheEntry Nat)) "k" 42 (some 300) 60000 0) ∧
    cacheGet [("k", ({ data := 42, timestamp := 0, ttl := 300 } : CacheEntry Nat))] "k" 1000 =
      (none, kvErase "k" [("k", ({ data := 42, timestamp := 0, ttl := 300 } : CacheEntry Nat))]) := by
  constructor
  · exact cache_expiry_semantics.2.2 Nat [] "k" 42 (some 300) 60000 0 200 (by decide)
  · exact (cache_expiry_semantics.1 Nat
      [("k", { data := 42, timestamp := 0, ttl := 300 })] "k" 1000
      { data := 42, timestamp := 0, ttl := 300 } rfl (by decide)).1

end CloudStudio
